import Mathlib

/-!
Verification of the P2P-lend oracle-service credit scoring core.

This file gives a shallow embedding of the scoring engine
(`oracle-service/internal/scoring`), the score repository
(`oracle-service/internal/repository`) and the oracle coordination service
(`oracle-service/internal/service`), and proves the specified properties
about them.

Modelling conventions:
* Go `uint8`/`uint16`/`uint32` counters are modelled as `ℕ`; where Go's
  wrap-around subtraction on `uint16` matters it is made explicit
  (`u16sub`).
* Go `float64` values are modelled as `ℚ`; the decimal literals of the
  source (`0.25`, `0.40`, ...) are exact decimal rationals here.
* Go's `uint16(f)` conversion of a `float64` is truncation toward zero for
  values in `[0, 2^16)`; `floatToUInt16` models exactly that domain
  (values outside it have implementation-defined behaviour in Go).
* `time.Time` values are modelled as integer timestamps in seconds, and
  `time.Now()` is passed in explicitly as a parameter `now`.
* The SHA-256 content digest is modelled as the digested content itself
  (a collision-free digest), since no property depends on its encoding.
-/

namespace P2PLend

/-- One day in seconds; Go durations `24 * time.Hour` are modelled in
seconds. -/
def day : ℤ := 86400

/-- Model of `models.OnChainMetrics` (gorm fields `ID`, `CreatedAt`,
`UpdatedAt` omitted: no verified property reads them). -/
structure OnChainMetrics where
  userAddress : String
  walletAge : ℕ
  totalTransactions : ℕ
  avgTransactionValue : ℚ
  defiInteractions : ℕ
  borrowingHistory : ℕ
  repaymentHistory : ℕ
  liquidationEvents : ℕ
  collateralValue : ℚ
  lastActivity : ℤ
deriving DecidableEq, Repr

/-- Model of `models.OffChainMetrics` (gorm bookkeeping fields omitted). -/
structure OffChainMetrics where
  userAddress : String
  traditionalCreditScore : ℕ
  bankAccountHistory : ℕ
  incomeVerified : Bool
  incomeLevel : String
  employmentStatus : String
  debtToIncomeRatio : ℚ
  dataSource : String
  lastVerified : ℤ
deriving DecidableEq, Repr

/-- Scoring weight `OnChainWeight = 0.40` from `scoring/engine.go`. -/
def OnChainWeight : ℚ := 0.40

/-- Scoring weight `OffChainWeight = 0.40` from `scoring/engine.go`. -/
def OffChainWeight : ℚ := 0.40

/-- Scoring weight `HybridWeight = 0.20` from `scoring/engine.go`. -/
def HybridWeight : ℚ := 0.20

/-- Constant `MinScore = 300` from `scoring/engine.go`. -/
def MinScore : ℕ := 300

/-- Constant `MaxScore = 850` from `scoring/engine.go`. -/
def MaxScore : ℕ := 850

/-- Go's `uint16(f)` conversion of a non-negative `float64` is truncation
toward zero; for the values reached in the engine this is `⌊q⌋`
(conversion of values outside `[0, 2^16)` is implementation-defined in Go
and not relied upon). -/
def floatToUInt16 (q : ℚ) : ℕ := (⌊q⌋).toNat

/-- Go `uint16` subtraction `a - b` wraps modulo `2^16`; used for
`metrics.TraditionalCreditScore - MinScore` in `calculateOffChainScore`. -/
def u16sub (a b : ℕ) : ℕ := (a + (65536 - b % 65536)) % 65536

/-- Embedding of `Engine.scoreWalletAge` from `scoring/engine.go`. -/
def scoreWalletAge (ageInDays : ℕ) : ℚ :=
  if 730 ≤ ageInDays then 1 else (ageInDays : ℚ) / 730

/-- Embedding of `Engine.scoreTransactionActivity` from `scoring/engine.go`. -/
def scoreTransactionActivity (txCount : ℕ) (avgValue : ℚ) : ℚ :=
  min ((txCount : ℚ) / 100) 1 * 0.6 + min (avgValue / 1000) 1 * 0.4

/-- Embedding of `Engine.scoreDeFiActivity` from `scoring/engine.go`. -/
def scoreDeFiActivity (interactions : ℕ) : ℚ :=
  min ((interactions : ℚ) / 50) 1

/-- Embedding of `Engine.scoreBorrowingHistory` from `scoring/engine.go`: neutral `0.5`
with no borrowing history, otherwise the repayment ratio minus a `0.2`
penalty per liquidation, clamped below at `0` then above at `1`. -/
def scoreBorrowingHistory (borrowed repaid liquidations : ℕ) : ℚ :=
  if borrowed = 0 then 0.5
  else
    let score := (repaid : ℚ) / (borrowed : ℚ) - (liquidations : ℚ) * 0.2
    let score := if score < 0 then 0 else score
    if 1 < score then 1 else score

/-- Embedding of `Engine.scoreCollateral` from `scoring/engine.go`. -/
def scoreCollateral (value : ℚ) : ℚ :=
  min (value / 10000) 1

/-- Embedding of `Engine.scoreIncome` from `scoring/engine.go`. -/
def scoreIncome (verified : Bool) (level : String) : ℚ :=
  if verified = false then 0.3
  else if level = "high" then 1
  else if level = "medium" then 0.7
  else if level = "low" then 0.5
  else 0.3

/-- Embedding of `Engine.scoreDTI` from `scoring/engine.go`. -/
def scoreDTI (ratio : ℚ) : ℚ :=
  if ratio ≤ 0.36 then 1
  else if ratio ≤ 0.43 then 0.7
  else if ratio ≤ 0.50 then 0.4
  else 0.2

/-- Embedding of `Engine.calculateOnChainScore` from `scoring/engine.go`. -/
def calculateOnChainScore : Option OnChainMetrics → ℕ
  | none => MinScore
  | some metrics =>
      let score : ℚ :=
        scoreWalletAge metrics.walletAge * 0.25
        + scoreTransactionActivity metrics.totalTransactions metrics.avgTransactionValue * 0.20
        + scoreDeFiActivity metrics.defiInteractions * 0.15
        + scoreBorrowingHistory metrics.borrowingHistory metrics.repaymentHistory
            metrics.liquidationEvents * 0.30
        + scoreCollateral metrics.collateralValue * 0.10
      MinScore + floatToUInt16 (score * ((MaxScore : ℚ) - (MinScore : ℚ)))

/-- Embedding of `Engine.calculateOffChainScore` from `scoring/engine.go`. The Go
expression `metrics.TraditionalCreditScore - MinScore` is `uint16`
arithmetic, hence `u16sub`. -/
def calculateOffChainScore : Option OffChainMetrics → ℕ
  | none => MinScore
  | some metrics =>
      let traditionalPart : ℚ :=
        if 0 < metrics.traditionalCreditScore then
          ((u16sub metrics.traditionalCreditScore MinScore : ℚ)
            / ((MaxScore : ℚ) - (MinScore : ℚ))) * 0.50
        else 0
      let score : ℚ :=
        traditionalPart
        + ((metrics.bankAccountHistory : ℚ) / 100) * 0.20
        + scoreIncome metrics.incomeVerified metrics.incomeLevel * 0.15
        + scoreDTI metrics.debtToIncomeRatio * 0.15
      MinScore + floatToUInt16 (score * ((MaxScore : ℚ) - (MinScore : ℚ)))

/-- Embedding of `Engine.calculateHybridScore` from `scoring/engine.go`: bonuses only
when both snapshots are present, clamp above at `1`, then scale. -/
def calculateHybridScore (now : ℤ) (onChain : Option OnChainMetrics)
    (offChain : Option OffChainMetrics) : ℕ :=
  let score : ℚ :=
    match onChain, offChain with
    | some onC, some offC =>
        (if 5 < onC.repaymentHistory ∧ offC.incomeVerified = true then (0.30 : ℚ) else 0)
        + (if now - onC.lastActivity < 30 * day then (0.20 : ℚ) else 0)
        + (if 1000 < onC.collateralValue ∧ offC.incomeVerified = true then (0.25 : ℚ) else 0)
        + (if offC.employmentStatus = "full-time" ∨ offC.employmentStatus = "self-employed"
            then (0.25 : ℚ) else 0)
    | _, _ => 0
  let score := if 1 < score then 1 else score
  MinScore + floatToUInt16 (score * ((MaxScore : ℚ) - (MinScore : ℚ)))

/-- Embedding of `Engine.calculateConfidence` from `scoring/engine.go`: additive
confidence, clamped above at `100`. -/
def calculateConfidence (now : ℤ) (onChain : Option OnChainMetrics)
    (offChain : Option OffChainMetrics) : ℕ :=
  let onPart : ℕ :=
    match onChain with
    | none => 0
    | some m =>
        (if now - m.lastActivity < 7 * day then 20
         else if now - m.lastActivity < 30 * day then 10 else 0)
        + (if 10 < m.totalTransactions then 15 else 0)
        + (if 0 < m.borrowingHistory then 15 else 0)
  let offPart : ℕ :=
    match offChain with
    | none => 0
    | some m =>
        (if 0 < m.traditionalCreditScore then 25 else 0)
        + (if m.incomeVerified = true then 15 else 0)
        + (if now - m.lastVerified < 30 * day then 10 else 0)
  let confidence := onPart + offPart
  if 100 < confidence then 100 else confidence

/-- Model of `Engine.generateDataHash`: the SHA-256 digest over the JSON
encoding of `(onChain, offChain, score, timestamp)` is modelled as the
digested content itself (a collision-free digest). -/
structure DataHash where
  onChain : Option OnChainMetrics
  offChain : Option OffChainMetrics
  score : ℕ
  timestamp : ℤ
deriving DecidableEq, Repr

/-- Embedding of `Engine.generateDataHash` from `scoring/engine.go` (see `DataHash`). -/
def generateDataHash (onChain : Option OnChainMetrics)
    (offChain : Option OffChainMetrics) (score : ℕ) (now : ℤ) : DataHash :=
  { onChain := onChain, offChain := offChain, score := score, timestamp := now }

/-- Model of `models.CreditScore` (gorm `UpdatedAt` omitted). -/
structure CreditScore where
  id : ℕ
  userAddress : String
  score : ℕ
  confidence : ℕ
  onChainScore : ℕ
  offChainScore : ℕ
  hybridScore : ℕ
  dataHash : DataHash
  lastUpdated : ℤ
  nextUpdateDue : ℤ
  updateCount : ℕ
  isActive : Bool
  createdAt : ℤ
deriving DecidableEq, Repr

/-- Weighted combination and clamping of the three component scores, as
done inline in `Engine.CalculateScore`: `uint16` conversion of the
weighted sum, clamp below at `MinScore`, then clamp above at `MaxScore`. -/
def compositeOf (onChainScore offChainScore hybridScore : ℕ) : ℕ :=
  let finalScore := floatToUInt16
    ((onChainScore : ℚ) * OnChainWeight + (offChainScore : ℚ) * OffChainWeight
      + (hybridScore : ℚ) * HybridWeight)
  let finalScore := if finalScore < MinScore then MinScore else finalScore
  if MaxScore < finalScore then MaxScore else finalScore

/-- Embedding of `Engine.CalculateScore` from `scoring/engine.go`. The Go function also
returns an `error` which is always `nil`, so the model returns the score
directly. `now` stands for `time.Now()`. -/
def CalculateScore (now : ℤ) (onChain : Option OnChainMetrics)
    (offChain : Option OffChainMetrics) : CreditScore :=
  let onChainScore := calculateOnChainScore onChain
  let offChainScore := calculateOffChainScore offChain
  let hybridScore := calculateHybridScore now onChain offChain
  let finalScore := compositeOf onChainScore offChainScore hybridScore
  { id := 0
    userAddress := ""
    score := finalScore
    confidence := calculateConfidence now onChain offChain
    onChainScore := onChainScore
    offChainScore := offChainScore
    hybridScore := hybridScore
    dataHash := generateDataHash onChain offChain finalScore now
    lastUpdated := now
    nextUpdateDue := now + 30 * day
    updateCount := 0
    isActive := true
    createdAt := 0 }

/-- Model of `models.ScoreHistory` (gorm bookkeeping omitted). -/
structure ScoreHistory where
  userAddress : String
  score : ℕ
  confidence : ℕ
  dataHash : DataHash
  timestamp : ℤ
deriving DecidableEq, Repr

/-- Model of `models.OracleUpdate` (gorm bookkeeping, `BlockNumber`,
`GasUsed`, `RetryCount` omitted: the service never sets them). -/
structure OracleUpdate where
  userAddress : String
  score : ℕ
  confidence : ℕ
  dataHash : DataHash
  txHash : String
  status : String
  errorMessage : String
deriving DecidableEq, Repr

/-- Errors flowing through the service layer. Go errors are values created
with `fmt.Errorf`; `wrap` models `fmt.Errorf("msg: %w", err)` and the leaf
constructors model the error classes the claims distinguish. -/
inductive Err where
  | provider : String → Err
  | notFound : String → Err
  | uniqueViolation : Err
  | other : String → Err
  | wrap : String → Err → Err
deriving DecidableEq, Repr

/-- Rendering of an error as its Go `Error()` message. -/
def errString : Err → String
  | .provider s => s
  | .notFound a => "no score found for address " ++ a
  | .uniqueViolation => "UNIQUE constraint failed"
  | .other s => s
  | .wrap m e => m ++ ": " ++ errString e

/-- Model of `types.Transaction`: only its hash is observed by the
service (`tx.Hash().Hex()`). -/
structure Tx where
  hash : String
deriving DecidableEq, Repr

/-- State of the persistence collaborator (`repository.ScoreRepository`):
the rows of each table. `credit_scores` has a unique index on
`user_address` and an auto-assigned primary key, tracked by `nextId`. -/
structure RepoState where
  nextId : ℕ
  scores : List CreditScore
  history : List ScoreHistory
  oracleUpdates : List OracleUpdate
  onChainRows : List OnChainMetrics
  offChainRows : List OffChainMetrics
deriving DecidableEq, Repr

/-- Embedding of `ScoreRepository.GetByAddress`: first row with the address and
`is_active = true`; `gorm.ErrRecordNotFound` is mapped to `(nil, nil)`,
i.e. `none`. -/
def getByAddress (s : RepoState) (address : String) : Option CreditScore :=
  s.scores.find? (fun r => r.userAddress == address && r.isActive)

/-- Embedding of `ScoreRepository.Create` for credit scores: inserts the row, assigning
the primary key; the unique index on `user_address` rejects a second row
for the same address. -/
def createScore (s : RepoState) (score : CreditScore) :
    Except Err (CreditScore × RepoState) :=
  if s.scores.any (fun r => r.userAddress == score.userAddress) then
    .error .uniqueViolation
  else
    let row := { score with id := s.nextId }
    .ok (row, { s with nextId := s.nextId + 1, scores := s.scores ++ [row] })

/-- Embedding of `ScoreRepository.Update` for credit scores: gorm `Save` overwrites the
row with the same primary key. -/
def updateScore (s : RepoState) (score : CreditScore) : RepoState :=
  { s with scores := s.scores.map (fun r => if r.id == score.id then score else r) }

/-- Embedding of `ScoreRepository.CreateHistory`: append-only insert. -/
def createHistory (s : RepoState) (entry : ScoreHistory) : RepoState :=
  { s with history := s.history ++ [entry] }

/-- Embedding of `ScoreRepository.CreateOracleUpdate`: append-only insert. -/
def createOracleUpdate (s : RepoState) (update : OracleUpdate) : RepoState :=
  { s with oracleUpdates := s.oracleUpdates ++ [update] }

/-- Embedding of `ScoreRepository.UpsertOnChainMetrics`: replace the row keyed by
address, or insert it. -/
def upsertOnChainMetrics (s : RepoState) (m : OnChainMetrics) : RepoState :=
  if s.onChainRows.any (fun r => r.userAddress == m.userAddress) then
    { s with onChainRows :=
        s.onChainRows.map (fun r => if r.userAddress == m.userAddress then m else r) }
  else
    { s with onChainRows := s.onChainRows ++ [m] }

/-- Embedding of `ScoreRepository.UpsertOffChainMetrics`: replace the row keyed by
address, or insert it. -/
def upsertOffChainMetrics (s : RepoState) (m : OffChainMetrics) : RepoState :=
  if s.offChainRows.any (fun r => r.userAddress == m.userAddress) then
    { s with offChainRows :=
        s.offChainRows.map (fun r => if r.userAddress == m.userAddress then m else r) }
  else
    { s with offChainRows := s.offChainRows ++ [m] }

/-- Result of `OracleService.CalculateAndUpdateScore`: the repository
state after the call (Go performs its writes as side effects even when it
then returns an error), the returned score (`none` on error) and the
returned error (`none` on success). -/
structure CalcResult where
  state : RepoState
  score : Option CreditScore
  err : Option Err
deriving DecidableEq, Repr

/-- Embedding of `OracleService.CalculateAndUpdateScore` from `service/oracle_service.go`.
The two aggregator calls are modelled by their outcomes `fetchOn` and
`fetchOff`; the repository is the in-memory `RepoState`. Failures of the
metric upserts and of `CreateHistory` are only logged in Go, so those
writes are modelled as always succeeding; `GetByAddress`, `Create` and
`Update` failures are fatal in Go, and of these only the unique-index
violation on `Create` is reachable in the model. -/
def calculateAndUpdateScore (s : RepoState) (address : String)
    (fetchOn : Except Err OnChainMetrics) (fetchOff : Except Err OffChainMetrics)
    (now : ℤ) : CalcResult :=
  match fetchOn with
  | .error e =>
      { state := s, score := none, err := some (.wrap ("failed to fetch on-chain metrics") e) }
  | .ok onMetrics =>
      let s := upsertOnChainMetrics s onMetrics
      let offMetrics : Option OffChainMetrics :=
        match fetchOff with
        | .error _ => none
        | .ok m => some m
      let s :=
        match offMetrics with
        | some m => upsertOffChainMetrics s m
        | none => s
      let score := CalculateScore now (some onMetrics) offMetrics
      let score := { score with userAddress := address }
      let finish (saved : CreditScore) (s : RepoState) : CalcResult :=
        let s := createHistory s
          { userAddress := address
            score := saved.score
            confidence := saved.confidence
            dataHash := saved.dataHash
            timestamp := now }
        { state := s, score := some saved, err := none }
      match getByAddress s address with
      | some existingScore =>
          let score :=
            { score with
                id := existingScore.id
                createdAt := existingScore.createdAt
                updateCount := existingScore.updateCount + 1 }
          finish score (updateScore s score)
      | none =>
          let score := { score with updateCount := 1 }
          match createScore s score with
          | .error e =>
              { state := s, score := none, err := some (.wrap ("failed to create score") e) }
          | .ok (saved, s) => finish saved s

/-- Result of `OracleService.PublishScoreToBlockchain`: the repository
state after the call and the returned error (`none` on success). -/
structure PublishResult where
  state : RepoState
  err : Option Err
deriving DecidableEq, Repr

/-- Embedding of `OracleService.PublishScoreToBlockchain` from
`service/oracle_service.go`. The blockchain collaborator call
`blockchainClient.UpdateCreditScore` is modelled by its outcome
`submitResult`; Go returns a `(*types.Transaction, error)` pair where both
may be `nil`, hence `Except Err (Option Tx)`. A failure of
`CreateOracleUpdate` is only logged in Go, so it is modelled as always
succeeding. -/
def publishScoreToBlockchain (s : RepoState) (address : String)
    (submitResult : Except Err (Option Tx)) : PublishResult :=
  match getByAddress s address with
  | none => { state := s, err := some (.notFound address) }
  | some score =>
      let update : OracleUpdate :=
        { userAddress := address, score := score.score, confidence := score.confidence,
          dataHash := score.dataHash, txHash := "", status := "pending", errorMessage := "" }
      match submitResult with
      | .error e =>
          let update := { update with status := "failed", errorMessage := errString e }
          { state := createOracleUpdate s update,
            err := some (.wrap ("failed to publish to blockchain") e) }
      | .ok tx =>
          let update :=
            match tx with
            | some t => { update with txHash := t.hash }
            | none => update
          { state := createOracleUpdate s update, err := none }

/-- Model of `providers.LendingPosition`: the two fields read by
`EnhancedOnChainAggregator.FetchMetrics`. -/
structure LendingPosition where
  borrowedAmount : ℚ
  healthFactor : ℚ
deriving DecidableEq, Repr

/-- Model of `providers.DeFiActivity`: only the count of these is read. -/
structure DeFiActivity where
  protocol : String
deriving DecidableEq, Repr

/-- Model of `providers.LiquidationEvent`: only the count of these is
read. -/
structure LiquidationEvent where
  txHash : String
deriving DecidableEq, Repr

/-- Model of `providers.BlockchainSummary`: the fields read by
`EnhancedOnChainAggregator.FetchMetrics`. -/
structure BlockchainSummary where
  address : String
  walletAge : ℕ
  totalTransactions : ℕ
  averageTransactionSize : ℚ
  defiActivities : List DeFiActivity
  lendingPositions : List LendingPosition
  liquidationEvents : List LiquidationEvent
  totalPortfolioValue : ℚ
  lastTransaction : ℤ
deriving DecidableEq, Repr

/-- Modelled from the spec: `providers.GetMultiChainAnalytics` and
`providers.ConvertMultiChainToBlockchainSummary` are not in the sources
(only their caller is); per §4.2 the multi-chain tier aggregates analytics
across a configured chain set and is accepted only if it observes at least
one transaction. The response carries the observed transaction count used
by that acceptance test together with the converted summary. -/
structure MultiChainData where
  totalTransactions : ℕ
  converted : BlockchainSummary
deriving DecidableEq, Repr

/-- Modelled from the spec: the pure conversion of an accepted multi-chain
aggregation into a `BlockchainSummary` (source not in the repository). -/
def convertMultiChainToBlockchainSummary (d : MultiChainData) : BlockchainSummary :=
  d.converted

/-- Configuration of `aggregator.EnhancedOnChainAggregator`:
`hasBlockscoutProvider` models `blockscoutProvider != nil`. -/
structure AggregatorFlags where
  useMockData : Bool
  preferBlockscout : Bool
  enableMultiChain : Bool
  hasBlockscoutProvider : Bool
deriving DecidableEq, Repr

/-- Outcomes of the provider calls made by
`EnhancedOnChainAggregator.FetchMetrics`, passed in as parameters: the
multi-chain analytics call, the Blockscout single-chain call (composed
with its pure `ConvertToBlockchainSummary`), the Covalent/Moralis call,
and the direct-RPC fallback `OnChainAggregator.FetchMetrics`. -/
structure ProviderResponses where
  multiChain : Except Err MultiChainData
  blockscout : Except Err BlockchainSummary
  covalent : Except Err BlockchainSummary
  rpc : Except Err OnChainMetrics
deriving Repr

/-- Embedding of `EnhancedOnChainAggregator.FetchMetrics` from
`aggregator/enhanced.go`: tiers attempted in order (multi-chain, then
Blockscout single chain, then Covalent/Moralis, then direct RPC), first
non-trivial result wins; the accepted summary is converted to
`OnChainMetrics`, deriving borrow/repay counts from the lending positions
(`BorrowedAmount > 0` counts as borrowed, additionally
`HealthFactor > 1.5` counts as repaid). The `useMockData` flag is part of
the aggregator's state but is only logged in this function. -/
def enhancedFetchMetrics (flags : AggregatorFlags) (resp : ProviderResponses)
    (address : String) : Except Err OnChainMetrics :=
  let tier1 : Option BlockchainSummary :=
    if flags.enableMultiChain ∧ flags.hasBlockscoutProvider then
      match resp.multiChain with
      | .error _ => none
      | .ok d =>
          if 0 < d.totalTransactions then some (convertMultiChainToBlockchainSummary d)
          else none
    else none
  let tier2 : Option BlockchainSummary :=
    match tier1 with
    | some d => some d
    | none =>
        if flags.preferBlockscout ∧ flags.hasBlockscoutProvider then
          match resp.blockscout with
          | .error _ => none
          | .ok d => some d
        else none
  let tier3 : Option BlockchainSummary :=
    match tier2 with
    | some d => some d
    | none =>
        match resp.covalent with
        | .error _ => none
        | .ok d => some d
  match tier3 with
  | none => resp.rpc
  | some blockchainData =>
      let counts := blockchainData.lendingPositions.foldl
        (fun (acc : ℕ × ℕ) pos =>
          if 0 < pos.borrowedAmount then
            (acc.1 + 1, if (1.5 : ℚ) < pos.healthFactor then acc.2 + 1 else acc.2)
          else acc) (0, 0)
      .ok {
        userAddress := address
        walletAge := blockchainData.walletAge
        totalTransactions := blockchainData.totalTransactions
        avgTransactionValue := blockchainData.averageTransactionSize
        defiInteractions := blockchainData.defiActivities.length
        borrowingHistory := counts.1
        repaymentHistory := counts.2
        liquidationEvents := blockchainData.liquidationEvents.length
        collateralValue := blockchainData.totalPortfolioValue
        lastActivity := blockchainData.lastTransaction }

/-- Restatement of the spec's hybrid-component formula, following the words
of the claim: 300 when either snapshot is missing; otherwise 300 plus the
integer truncation of `550 · s`, where `s` starts at 0, adds 0.30 / 0.20 /
0.25 / 0.25 for the four bonuses, and is clamped to `[0, 1]`. -/
def hybridComponentSpec (now : ℤ) : Option OnChainMetrics → Option OffChainMetrics → ℕ
  | some onC, some offC =>
      let s : ℚ :=
        (if 5 < onC.repaymentHistory ∧ offC.incomeVerified = true then (0.30 : ℚ) else 0)
        + (if now - onC.lastActivity < 30 * day then (0.20 : ℚ) else 0)
        + (if 1000 < onC.collateralValue ∧ offC.incomeVerified = true then (0.25 : ℚ) else 0)
        + (if offC.employmentStatus = "full-time" ∨ offC.employmentStatus = "self-employed"
            then (0.25 : ℚ) else 0)
      let s := max 0 (min s 1)
      300 + (⌊550 * s⌋).toNat
  | _, _ => 300

/-! ### Range lemmas -/

theorem floatToUInt16_le {q : ℚ} {c : ℕ} (h : q ≤ (c : ℚ)) : floatToUInt16 q ≤ c := by
  unfold floatToUInt16
  have h1 : ⌊q⌋ ≤ (c : ℤ) := by
    have h2 := Int.floor_le_floor h
    simpa using h2
  omega

theorem floatToUInt16_mono {p q : ℚ} (h : p ≤ q) : floatToUInt16 p ≤ floatToUInt16 q := by
  unfold floatToUInt16
  have h1 := Int.floor_le_floor h
  omega

theorem scoreWalletAge_le_one (a : ℕ) : scoreWalletAge a ≤ 1 := by
  unfold scoreWalletAge
  split_ifs with h
  · norm_num
  · rw [div_le_one (by norm_num)]
    exact_mod_cast Nat.le_of_lt (by omega)

theorem scoreTransactionActivity_le_one (t : ℕ) (v : ℚ) :
    scoreTransactionActivity t v ≤ 1 := by
  unfold scoreTransactionActivity
  have h1 : min ((t : ℚ) / 100) 1 * 0.6 ≤ 0.6 := by
    have := min_le_right ((t : ℚ) / 100) 1
    nlinarith
  have h2 : min (v / 1000) 1 * 0.4 ≤ 0.4 := by
    have := min_le_right (v / 1000) 1
    nlinarith
  linarith

theorem scoreDeFiActivity_le_one (n : ℕ) : scoreDeFiActivity n ≤ 1 :=
  min_le_right _ _

theorem scoreBorrowingHistory_le_one (b r l : ℕ) : scoreBorrowingHistory b r l ≤ 1 := by
  unfold scoreBorrowingHistory
  dsimp only
  split_ifs <;> linarith

theorem scoreCollateral_le_one (v : ℚ) : scoreCollateral v ≤ 1 :=
  min_le_right _ _

theorem scoreIncome_le_one (b : Bool) (s : String) : scoreIncome b s ≤ 1 := by
  unfold scoreIncome
  split_ifs <;> norm_num

theorem scoreDTI_le_one (r : ℚ) : scoreDTI r ≤ 1 := by
  unfold scoreDTI
  split_ifs <;> norm_num

/-- On-chain component bound: for every input (nil included) the on-chain
component lies in `[300, 850]`. -/
theorem calculateOnChainScore_range (o : Option OnChainMetrics) :
    MinScore ≤ calculateOnChainScore o ∧ calculateOnChainScore o ≤ MaxScore := by
  cases o with
  | none => exact ⟨le_refl _, by norm_num [calculateOnChainScore, MinScore, MaxScore]⟩
  | some m =>
      constructor
      · exact Nat.le_add_right _ _
      · unfold calculateOnChainScore
        dsimp only
        have hsum :
            scoreWalletAge m.walletAge * 0.25
              + scoreTransactionActivity m.totalTransactions m.avgTransactionValue * 0.20
              + scoreDeFiActivity m.defiInteractions * 0.15
              + scoreBorrowingHistory m.borrowingHistory m.repaymentHistory
                  m.liquidationEvents * 0.30
              + scoreCollateral m.collateralValue * 0.10 ≤ 1 := by
          have h1 := scoreWalletAge_le_one m.walletAge
          have h2 := scoreTransactionActivity_le_one m.totalTransactions m.avgTransactionValue
          have h3 := scoreDeFiActivity_le_one m.defiInteractions
          have h4 := scoreBorrowingHistory_le_one m.borrowingHistory m.repaymentHistory
            m.liquidationEvents
          have h5 := scoreCollateral_le_one m.collateralValue
          nlinarith
        have hle : (scoreWalletAge m.walletAge * 0.25
              + scoreTransactionActivity m.totalTransactions m.avgTransactionValue * 0.20
              + scoreDeFiActivity m.defiInteractions * 0.15
              + scoreBorrowingHistory m.borrowingHistory m.repaymentHistory
                  m.liquidationEvents * 0.30
              + scoreCollateral m.collateralValue * 0.10)
              * ((MaxScore : ℚ) - (MinScore : ℚ)) ≤ ((550 : ℕ) : ℚ) := by
          have h550 : ((MaxScore : ℕ) : ℚ) - ((MinScore : ℕ) : ℚ) = 550 := by
            norm_num [MinScore, MaxScore]
          rw [h550]
          push_cast
          nlinarith
        have := floatToUInt16_le hle
        unfold MinScore MaxScore at *
        omega

/-- Hybrid component bound: for every input (nil included) the hybrid
component lies in `[300, 850]`. -/
theorem calculateHybridScore_range (now : ℤ) (onChain : Option OnChainMetrics)
    (offChain : Option OffChainMetrics) :
    MinScore ≤ calculateHybridScore now onChain offChain ∧
    calculateHybridScore now onChain offChain ≤ MaxScore := by
  constructor
  · exact Nat.le_add_right _ _
  · unfold calculateHybridScore
    dsimp only
    set s : ℚ := (match onChain, offChain with
      | some onC, some offC =>
          (if 5 < onC.repaymentHistory ∧ offC.incomeVerified = true then (0.30 : ℚ) else 0)
          + (if now - onC.lastActivity < 30 * day then (0.20 : ℚ) else 0)
          + (if 1000 < onC.collateralValue ∧ offC.incomeVerified = true then (0.25 : ℚ) else 0)
          + (if offC.employmentStatus = "full-time" ∨ offC.employmentStatus = "self-employed"
              then (0.25 : ℚ) else 0)
      | _, _ => 0) with hs
    have hclamp : (if 1 < s then 1 else s) ≤ (1 : ℚ) := by
      split_ifs with h
      · norm_num
      · exact le_of_not_lt h
    have hle : (if 1 < s then (1 : ℚ) else s) * ((MaxScore : ℚ) - (MinScore : ℚ))
        ≤ ((550 : ℕ) : ℚ) := by
      have h550 : ((MaxScore : ℕ) : ℚ) - ((MinScore : ℕ) : ℚ) = 550 := by
        norm_num [MinScore, MaxScore]
      rw [h550]
      push_cast
      nlinarith
    have := floatToUInt16_le hle
    unfold MinScore MaxScore at *
    omega

theorem compositeOf_range (a b c : ℕ) :
    MinScore ≤ compositeOf a b c ∧ compositeOf a b c ≤ MaxScore := by
  unfold compositeOf MinScore MaxScore
  dsimp only
  split_ifs <;> omega

theorem calculateConfidence_le (now : ℤ) (onChain : Option OnChainMetrics)
    (offChain : Option OffChainMetrics) :
    calculateConfidence now onChain offChain ≤ 100 := by
  unfold calculateConfidence
  dsimp only
  split_ifs <;> omega

theorem u16sub_in_range {t : ℕ} (h1 : 300 ≤ t) (h2 : t ≤ 850) :
    u16sub t MinScore = t - 300 := by
  unfold u16sub MinScore
  omega

/-- Off-chain component bound, valid when the snapshot's fields are inside
their documented ranges (`TraditionalCreditScore` is `300-850` or `0`,
`BankAccountHistory` is `0-100`, per the comments in
`models/credit_score.go`). -/
theorem calculateOffChainScore_range (o : Option OffChainMetrics)
    (hdoc : ∀ m, o = some m → (m.traditionalCreditScore = 0 ∨
        (MinScore ≤ m.traditionalCreditScore ∧ m.traditionalCreditScore ≤ MaxScore)) ∧
        m.bankAccountHistory ≤ 100) :
    MinScore ≤ calculateOffChainScore o ∧ calculateOffChainScore o ≤ MaxScore := by
  cases o with
  | none =>
      constructor
      · exact le_refl _
      · show MinScore ≤ MaxScore
        norm_num [MinScore, MaxScore]
  | some m =>
      obtain ⟨htrad, hbank⟩ := hdoc m rfl
      constructor
      · exact Nat.le_add_right _ _
      · unfold calculateOffChainScore
        dsimp only
        have h550 : ((MaxScore : ℕ) : ℚ) - ((MinScore : ℕ) : ℚ) = 550 := by
          norm_num [MinScore, MaxScore]
        rw [h550]
        have htp : (if 0 < m.traditionalCreditScore then
            ((u16sub m.traditionalCreditScore MinScore : ℚ) / 550) * 0.50 else 0) ≤ 0.50 := by
          split_ifs with h0
          · rcases htrad with h | ⟨ha, hb⟩
            · omega
            · have hsub : u16sub m.traditionalCreditScore MinScore ≤ 550 := by
                rw [u16sub_in_range ha hb]
                unfold MaxScore at hb
                omega
              have hcast : ((u16sub m.traditionalCreditScore MinScore : ℕ) : ℚ) ≤ 550 := by
                exact_mod_cast hsub
              have hdiv : ((u16sub m.traditionalCreditScore MinScore : ℕ) : ℚ) / 550 ≤ 1 := by
                rw [div_le_one (by norm_num)]
                exact hcast
              linarith
          · norm_num
        have hbp : ((m.bankAccountHistory : ℚ) / 100) * 0.20 ≤ 0.20 := by
          have hc : ((m.bankAccountHistory : ℕ) : ℚ) ≤ 100 := by exact_mod_cast hbank
          have hdiv : ((m.bankAccountHistory : ℕ) : ℚ) / 100 ≤ 1 := by
            rw [div_le_one (by norm_num)]
            exact hc
          linarith
        have hip : scoreIncome m.incomeVerified m.incomeLevel * 0.15 ≤ 0.15 := by
          have := scoreIncome_le_one m.incomeVerified m.incomeLevel
          linarith
        have hdp : scoreDTI m.debtToIncomeRatio * 0.15 ≤ 0.15 := by
          have := scoreDTI_le_one m.debtToIncomeRatio
          linarith
        have hsum : (if 0 < m.traditionalCreditScore then
              ((u16sub m.traditionalCreditScore MinScore : ℚ) / 550) * 0.50 else 0)
            + ((m.bankAccountHistory : ℚ) / 100) * 0.20
            + scoreIncome m.incomeVerified m.incomeLevel * 0.15
            + scoreDTI m.debtToIncomeRatio * 0.15 ≤ 1 := by
          linarith
        have hle : ((if 0 < m.traditionalCreditScore then
              ((u16sub m.traditionalCreditScore MinScore : ℚ) / 550) * 0.50 else 0)
            + ((m.bankAccountHistory : ℚ) / 100) * 0.20
            + scoreIncome m.incomeVerified m.incomeLevel * 0.15
            + scoreDTI m.debtToIncomeRatio * 0.15) * 550 ≤ ((550 : ℕ) : ℚ) := by
          push_cast
          nlinarith
        have := floatToUInt16_le hle
        unfold MinScore MaxScore at *
        omega

/-- C1: for every pair of inputs (onChain, offChain) to `CalculateScore`,
including either or both being `nil`, the returned composite score is an
integer in `[300, 850]` and the returned confidence is an integer in
`[0, 100]` (scores are naturals, so the lower bounds `300 ≤ _` and
`0 ≤ _` say exactly that). -/
theorem calculateScore_range (now : ℤ) (onChain : Option OnChainMetrics)
    (offChain : Option OffChainMetrics) :
    MinScore ≤ (CalculateScore now onChain offChain).score ∧
    (CalculateScore now onChain offChain).score ≤ MaxScore ∧
    (CalculateScore now onChain offChain).confidence ≤ 100 := by
  refine ⟨?_, ?_, ?_⟩
  · exact (compositeOf_range _ _ _).1
  · exact (compositeOf_range _ _ _).2
  · exact calculateConfidence_le now onChain offChain

theorem floatToUInt16_eq {q : ℚ} {n : ℕ} (h1 : (n : ℚ) ≤ q) (h2 : q < (n : ℚ) + 1) :
    floatToUInt16 q = n := by
  unfold floatToUInt16
  have hf : ⌊q⌋ = (n : ℤ) := by
    rw [Int.floor_eq_iff]
    constructor
    · push_cast
      exact h1
    · push_cast
      exact h2
  rw [hf]
  exact Int.toNat_natCast n

theorem hybrid_zero_eval :
    MinScore + floatToUInt16 ((if 1 < (0 : ℚ) then 1 else 0)
      * ((MaxScore : ℚ) - (MinScore : ℚ))) = 300 := by
  rw [if_neg (by norm_num : ¬ (1 : ℚ) < 0)]
  rw [floatToUInt16_eq (n := 0) (by norm_num) (by norm_num [MinScore, MaxScore])]
  norm_num [MinScore]

theorem hybrid_clamp_eq (s : ℚ) (hs : 0 ≤ s) :
    MinScore + floatToUInt16 ((if 1 < s then (1 : ℚ) else s) * ((MaxScore : ℚ) - (MinScore : ℚ)))
      = 300 + (⌊550 * max 0 (min s 1)⌋).toNat := by
  have h1 : max 0 (min s 1) = min s 1 := max_eq_right (le_min hs zero_le_one)
  have h2 : (if 1 < s then (1 : ℚ) else s) = min s 1 := by
    rcases le_or_lt s 1 with h | h
    · rw [if_neg (not_lt.mpr h), min_eq_left h]
    · rw [if_pos h, min_eq_right h.le]
  have h550 : ((MaxScore : ℕ) : ℚ) - ((MinScore : ℕ) : ℚ) = 550 := by
    norm_num [MinScore, MaxScore]
  rw [h1, h2, h550, mul_comm (min s 1) (550 : ℚ)]
  rfl

/-- C5: the hybridComponent returned by `CalculateScore` is 300 when
either snapshot is nil; with both present it is 300 plus the integer
truncation of `550 · s`, where `s` starts at 0, adds 0.30 if
repaidCount > 5 and incomeVerified, 0.20 if lastActivity is within 30
days, 0.25 if collateralValue > 1000 and incomeVerified, 0.25 if
employmentStatus is full-time or self-employed, clamped to `[0, 1]`
(`hybridComponentSpec` restates exactly this). -/
theorem calculateScore_hybrid_matches_spec (now : ℤ) (onChain : Option OnChainMetrics)
    (offChain : Option OffChainMetrics) :
    (CalculateScore now onChain offChain).hybridScore =
      hybridComponentSpec now onChain offChain := by
  show calculateHybridScore now onChain offChain = hybridComponentSpec now onChain offChain
  cases onChain with
  | none =>
      cases offChain with
      | none =>
          show MinScore + floatToUInt16 ((if 1 < (0 : ℚ) then 1 else 0)
            * ((MaxScore : ℚ) - (MinScore : ℚ))) = 300
          exact hybrid_zero_eval
      | some offC =>
          show MinScore + floatToUInt16 ((if 1 < (0 : ℚ) then 1 else 0)
            * ((MaxScore : ℚ) - (MinScore : ℚ))) = 300
          exact hybrid_zero_eval
  | some onC =>
      cases offChain with
      | none =>
          show MinScore + floatToUInt16 ((if 1 < (0 : ℚ) then 1 else 0)
            * ((MaxScore : ℚ) - (MinScore : ℚ))) = 300
          exact hybrid_zero_eval
      | some offC =>
          unfold calculateHybridScore hybridComponentSpec
          dsimp only
          refine hybrid_clamp_eq _ ?_
          have t1 : (0 : ℚ) ≤
              if 5 < onC.repaymentHistory ∧ offC.incomeVerified = true then (0.30 : ℚ) else 0 := by
            split_ifs <;> norm_num
          have t2 : (0 : ℚ) ≤ if now - onC.lastActivity < 30 * day then (0.20 : ℚ) else 0 := by
            split_ifs <;> norm_num
          have t3 : (0 : ℚ) ≤
              if 1000 < onC.collateralValue ∧ offC.incomeVerified = true then (0.25 : ℚ) else 0 := by
            split_ifs <;> norm_num
          have t4 : (0 : ℚ) ≤
              if offC.employmentStatus = "full-time" ∨ offC.employmentStatus = "self-employed"
                then (0.25 : ℚ) else 0 := by
            split_ifs <;> norm_num
          linarith

/-- Concrete off-chain snapshot whose traditional credit score is 100:
positive, but below the scale floor of 300. -/
def underflowOffChain : OffChainMetrics :=
  { userAddress := "0xabc"
    traditionalCreditScore := 100
    bankAccountHistory := 0
    incomeVerified := false
    incomeLevel := ""
    employmentStatus := ""
    debtToIncomeRatio := 0
    dataSource := ""
    lastVerified := 0 }

/-- C2 counterexample: at traditionalCreditScore = 100 (which is > 0) the
`uint16` subtraction `TraditionalCreditScore - MinScore` in
`calculateOffChainScore` wraps around, and the returned offChainComponent
is far above 850 — so the claimed component range fails for a
traditionalCreditScore that is positive but below 300. -/
theorem offChainComponent_underflow_cex :
    0 < underflowOffChain.traditionalCreditScore ∧
    MaxScore < (CalculateScore 0 none (some underflowOffChain)).offChainScore := by
  constructor
  · decide
  · show MaxScore < calculateOffChainScore (some underflowOffChain)
    unfold calculateOffChainScore
    dsimp only
    have harg : ((if 0 < underflowOffChain.traditionalCreditScore then
          ((u16sub underflowOffChain.traditionalCreditScore MinScore : ℚ)
            / ((MaxScore : ℚ) - (MinScore : ℚ))) * 0.50 else 0)
        + ((underflowOffChain.bankAccountHistory : ℚ) / 100) * 0.20
        + scoreIncome underflowOffChain.incomeVerified underflowOffChain.incomeLevel * 0.15
        + scoreDTI underflowOffChain.debtToIncomeRatio * 0.15)
        * ((MaxScore : ℚ) - (MinScore : ℚ)) = 131101 / 4 := by
      norm_num [underflowOffChain, u16sub, scoreIncome, scoreDTI, MinScore, MaxScore]
    rw [harg, floatToUInt16_eq (n := 32775) (by norm_num) (by norm_num)]
    norm_num [MinScore, MaxScore]

/-- C2 (amended): the onChainComponent and hybridComponent of every
`CalculateScore` result lie in `[300, 850]`, and the offChainComponent
does too provided the off-chain snapshot's fields are within their
documented ranges: traditionalCreditScore is 0 or in `[300, 850]`, and
bankAccountHistory is at most 100 (the claim's clause "for every
traditionalCreditScore > 0" fails for values in `(0, 300)` by the
counterexample above). -/
theorem calculateScore_components_range (now : ℤ) (onChain : Option OnChainMetrics)
    (offChain : Option OffChainMetrics)
    (hdoc : ∀ m, offChain = some m → (m.traditionalCreditScore = 0 ∨
        (MinScore ≤ m.traditionalCreditScore ∧ m.traditionalCreditScore ≤ MaxScore)) ∧
        m.bankAccountHistory ≤ 100) :
    (MinScore ≤ (CalculateScore now onChain offChain).onChainScore ∧
      (CalculateScore now onChain offChain).onChainScore ≤ MaxScore) ∧
    (MinScore ≤ (CalculateScore now onChain offChain).offChainScore ∧
      (CalculateScore now onChain offChain).offChainScore ≤ MaxScore) ∧
    (MinScore ≤ (CalculateScore now onChain offChain).hybridScore ∧
      (CalculateScore now onChain offChain).hybridScore ≤ MaxScore) :=
  ⟨calculateOnChainScore_range onChain, calculateOffChainScore_range offChain hdoc,
    calculateHybridScore_range now onChain offChain⟩

/-- Concrete off-chain snapshot inside the documented field ranges. -/
def docOffChain : OffChainMetrics :=
  { userAddress := "0xdoc"
    traditionalCreditScore := 750
    bankAccountHistory := 90
    incomeVerified := true
    incomeLevel := "high"
    employmentStatus := "full-time"
    debtToIncomeRatio := 0.20
    dataSource := "bureau"
    lastVerified := 0 }

/-- Witness for the amended C2 theorem at a concrete in-range input. -/
theorem calculateScore_components_range_witness :
    (MinScore ≤ (CalculateScore 0 none (some docOffChain)).onChainScore ∧
      (CalculateScore 0 none (some docOffChain)).onChainScore ≤ MaxScore) ∧
    (MinScore ≤ (CalculateScore 0 none (some docOffChain)).offChainScore ∧
      (CalculateScore 0 none (some docOffChain)).offChainScore ≤ MaxScore) ∧
    (MinScore ≤ (CalculateScore 0 none (some docOffChain)).hybridScore ∧
      (CalculateScore 0 none (some docOffChain)).hybridScore ≤ MaxScore) :=
  calculateScore_components_range 0 none (some docOffChain)
    (fun m hm => by
      injection hm with h
      subst h
      decide)

/-- C9: `EnhancedOnChainAggregator.FetchMetrics` returns identical
`OnChainMetrics` for identical provider responses whatever the value of
the global use-mock-data flag: the flag never substitutes synthetic data
for on-chain data. -/
theorem enhancedFetchMetrics_ignores_mock_flag (mock mock' preferBS multi hasBS : Bool)
    (resp : ProviderResponses) (address : String) :
    enhancedFetchMetrics ⟨mock, preferBS, multi, hasBS⟩ resp address =
    enhancedFetchMetrics ⟨mock', preferBS, multi, hasBS⟩ resp address := rfl

/-! ### Service-layer lemmas -/

theorem upsertOnChainMetrics_scores (s : RepoState) (m : OnChainMetrics) :
    (upsertOnChainMetrics s m).scores = s.scores := by
  unfold upsertOnChainMetrics
  split_ifs <;> rfl

theorem upsertOffChainMetrics_scores (s : RepoState) (m : OffChainMetrics) :
    (upsertOffChainMetrics s m).scores = s.scores := by
  unfold upsertOffChainMetrics
  split_ifs <;> rfl

theorem upsertOnChainMetrics_history (s : RepoState) (m : OnChainMetrics) :
    (upsertOnChainMetrics s m).history = s.history := by
  unfold upsertOnChainMetrics
  split_ifs <;> rfl

theorem upsertOffChainMetrics_history (s : RepoState) (m : OffChainMetrics) :
    (upsertOffChainMetrics s m).history = s.history := by
  unfold upsertOffChainMetrics
  split_ifs <;> rfl

theorem getByAddress_scores_eq {s t : RepoState} (h : s.scores = t.scores) (a : String) :
    getByAddress s a = getByAddress t a := by
  unfold getByAddress
  rw [h]

theorem getByAddress_none_of_no_row {s : RepoState} {address : String}
    (hnone : ∀ r ∈ s.scores, r.userAddress ≠ address) :
    getByAddress s address = none := by
  unfold getByAddress
  apply List.find?_eq_none.mpr
  intro r hr
  simp [hnone r hr]

/-- C6: for every address with no stored CreditScore row,
`PublishScoreToBlockchain` returns the not-found error and creates no
OracleUpdate row — the OracleUpdate table is unchanged. -/
theorem publish_not_found (s : RepoState) (address : String)
    (submitResult : Except Err (Option Tx))
    (hnone : ∀ r ∈ s.scores, r.userAddress ≠ address) :
    (publishScoreToBlockchain s address submitResult).err = some (.notFound address) ∧
    (publishScoreToBlockchain s address submitResult).state.oracleUpdates =
      s.oracleUpdates := by
  unfold publishScoreToBlockchain
  rw [getByAddress_none_of_no_row hnone]
  exact ⟨rfl, rfl⟩

/-- Repository state with no rows at all. -/
def emptyRepo : RepoState :=
  { nextId := 1
    scores := []
    history := []
    oracleUpdates := []
    onChainRows := []
    offChainRows := [] }

/-- Witness for C6 at the empty repository. -/
theorem publish_not_found_witness :
    (publishScoreToBlockchain emptyRepo ("0x1") (.ok none)).err =
      some (.notFound ("0x1")) ∧
    (publishScoreToBlockchain emptyRepo ("0x1") (.ok none)).state.oracleUpdates = [] :=
  publish_not_found emptyRepo ("0x1") (.ok none) (by intro r hr; cases hr)

/-- C7 (amended): for an address with a stored (active) CreditScore,
`PublishScoreToBlockchain` records exactly one OracleUpdate row whatever
the submission outcome — status "failed" with the rendered errorMessage
when submission errors, status "pending" (with txReference exactly when
the submission returned a transaction) when it succeeds — and on error it
returns an error wrapping the underlying submission error (the Go code
wraps it with `fmt.Errorf("failed to publish to blockchain: %w", err)`,
so the error is not returned unmodified). -/
theorem publish_records_one_update (s : RepoState) (address : String)
    (submitResult : Except Err (Option Tx)) (score : CreditScore)
    (hget : getByAddress s address = some score) :
    (∀ e, submitResult = .error e →
        (publishScoreToBlockchain s address submitResult).state.oracleUpdates =
          s.oracleUpdates ++
            [⟨address, score.score, score.confidence, score.dataHash, "", "failed",
              errString e⟩] ∧
        (publishScoreToBlockchain s address submitResult).err =
          some (.wrap ("failed to publish to blockchain") e)) ∧
    (∀ tx, submitResult = .ok (some tx) →
        (publishScoreToBlockchain s address submitResult).state.oracleUpdates =
          s.oracleUpdates ++
            [⟨address, score.score, score.confidence, score.dataHash, tx.hash, "pending",
              ""⟩] ∧
        (publishScoreToBlockchain s address submitResult).err = none) ∧
    (submitResult = .ok none →
        (publishScoreToBlockchain s address submitResult).state.oracleUpdates =
          s.oracleUpdates ++
            [⟨address, score.score, score.confidence, score.dataHash, "", "pending", ""⟩] ∧
        (publishScoreToBlockchain s address submitResult).err = none) := by
  unfold publishScoreToBlockchain
  rw [hget]
  refine ⟨?_, ?_, ?_⟩
  · intro e he
    subst he
    exact ⟨rfl, rfl⟩
  · intro tx htx
    subst htx
    exact ⟨rfl, rfl⟩
  · intro hn
    subst hn
    exact ⟨rfl, rfl⟩

/-- Stored credit-score row used in the publish scenarios. -/
def pubRow : CreditScore :=
  { id := 1
    userAddress := "0x1"
    score := 700
    confidence := 80
    onChainScore := 650
    offChainScore := 700
    hybridScore := 500
    dataHash := { onChain := none, offChain := none, score := 700, timestamp := 0 }
    lastUpdated := 0
    nextUpdateDue := 2592000
    updateCount := 1
    isActive := true
    createdAt := 0 }

/-- Repository state holding exactly `pubRow`. -/
def pubRepo : RepoState :=
  { nextId := 2
    scores := [pubRow]
    history := []
    oracleUpdates := []
    onChainRows := []
    offChainRows := [] }

/-- C7 counterexample: the claim says the underlying submission error is
returned to the caller unmodified, but the service wraps it — at a
concrete failing submission the returned error differs from the
underlying error and is the wrapped one. -/
theorem publish_error_wrapped_cex :
    (publishScoreToBlockchain pubRepo ("0x1") (.error (.provider ("rpc down")))).err ≠
      some (Err.provider ("rpc down")) ∧
    (publishScoreToBlockchain pubRepo ("0x1") (.error (.provider ("rpc down")))).err =
      some (.wrap ("failed to publish to blockchain") (.provider ("rpc down"))) := by
  have hget : getByAddress pubRepo ("0x1") = some pubRow := by
    unfold getByAddress pubRepo
    simp [pubRow]
  have h : (publishScoreToBlockchain pubRepo ("0x1") (.error (.provider ("rpc down")))).err =
      some (.wrap ("failed to publish to blockchain") (.provider ("rpc down"))) := by
    unfold publishScoreToBlockchain
    rw [hget]
  refine ⟨?_, h⟩
  rw [h]
  simp

/-- Witness for the amended C7 theorem: a successful submission with a
transaction at a concrete state appends exactly the pending OracleUpdate
row and returns no error. -/
theorem publish_records_one_update_witness :
    (publishScoreToBlockchain pubRepo ("0x1") (.ok (some { hash := "0xtx" }))).state.oracleUpdates =
      pubRepo.oracleUpdates ++
        [⟨"0x1", pubRow.score, pubRow.confidence, pubRow.dataHash, "0xtx", "pending", ""⟩] ∧
    (publishScoreToBlockchain pubRepo ("0x1") (.ok (some { hash := "0xtx" }))).err = none :=
  (publish_records_one_update pubRepo ("0x1") (.ok (some { hash := "0xtx" })) pubRow
    rfl).2.1 { hash := "0xtx" } rfl

/-- Closed form of `CalculateAndUpdateScore` on the update path: when the
on-chain fetch succeeds and an active row exists for the address, the call
overwrites that row (same primary key and createdAt, updateCount bumped)
and appends one history entry. -/
theorem calcAndUpdate_update_path (s : RepoState) (address : String) (onM : OnChainMetrics)
    (fetchOff : Except Err OffChainMetrics) (now : ℤ) (existing : CreditScore)
    (hex : getByAddress s address = some existing) :
    calculateAndUpdateScore s address (.ok onM) fetchOff now =
      match fetchOff with
      | .error _ =>
          let s2 := upsertOnChainMetrics s onM
          let saved := { CalculateScore now (some onM) none with
              userAddress := address
              id := existing.id
              createdAt := existing.createdAt
              updateCount := existing.updateCount + 1 }
          { state := createHistory (updateScore s2 saved)
              ⟨address, saved.score, saved.confidence, saved.dataHash, now⟩
            score := some saved
            err := none }
      | .ok m =>
          let s2 := upsertOffChainMetrics (upsertOnChainMetrics s onM) m
          let saved := { CalculateScore now (some onM) (some m) with
              userAddress := address
              id := existing.id
              createdAt := existing.createdAt
              updateCount := existing.updateCount + 1 }
          { state := createHistory (updateScore s2 saved)
              ⟨address, saved.score, saved.confidence, saved.dataHash, now⟩
            score := some saved
            err := none } := by
  cases fetchOff with
  | error e =>
      have hget2 : getByAddress (upsertOnChainMetrics s onM) address = some existing := by
        rw [getByAddress_scores_eq (upsertOnChainMetrics_scores s onM)]
        exact hex
      unfold calculateAndUpdateScore
      dsimp only
      rw [hget2]
  | ok m =>
      have hget2 : getByAddress (upsertOffChainMetrics (upsertOnChainMetrics s onM) m)
          address = some existing := by
        rw [getByAddress_scores_eq (upsertOffChainMetrics_scores _ m),
          getByAddress_scores_eq (upsertOnChainMetrics_scores s onM)]
        exact hex
      unfold calculateAndUpdateScore
      dsimp only
      rw [hget2]

/-- Closed form of `CalculateAndUpdateScore` on the create path: when the
on-chain fetch succeeds and no row at all exists for the address, the call
inserts a fresh row with updateCount 1 and appends one history entry. -/
theorem calcAndUpdate_create_path (s : RepoState) (address : String) (onM : OnChainMetrics)
    (fetchOff : Except Err OffChainMetrics) (now : ℤ)
    (hnone : ∀ r ∈ s.scores, r.userAddress ≠ address) :
    calculateAndUpdateScore s address (.ok onM) fetchOff now =
      match fetchOff with
      | .error _ =>
          let s2 := upsertOnChainMetrics s onM
          let saved := { CalculateScore now (some onM) none with
              userAddress := address
              updateCount := 1
              id := s2.nextId }
          { state := createHistory
              { s2 with nextId := s2.nextId + 1, scores := s2.scores ++ [saved] }
              ⟨address, saved.score, saved.confidence, saved.dataHash, now⟩
            score := some saved
            err := none }
      | .ok m =>
          let s2 := upsertOffChainMetrics (upsertOnChainMetrics s onM) m
          let saved := { CalculateScore now (some onM) (some m) with
              userAddress := address
              updateCount := 1
              id := s2.nextId }
          { state := createHistory
              { s2 with nextId := s2.nextId + 1, scores := s2.scores ++ [saved] }
              ⟨address, saved.score, saved.confidence, saved.dataHash, now⟩
            score := some saved
            err := none } := by
  cases fetchOff with
  | error e =>
      have hget2 : getByAddress (upsertOnChainMetrics s onM) address = none := by
        rw [getByAddress_scores_eq (upsertOnChainMetrics_scores s onM)]
        exact getByAddress_none_of_no_row hnone
      have hany : ((upsertOnChainMetrics s onM).scores.any
          (fun r => r.userAddress == ({ { CalculateScore now (some onM) none with
            userAddress := address } with updateCount := 1 } : CreditScore).userAddress))
          = false := by
        rw [upsertOnChainMetrics_scores, List.any_eq_false]
        intro r hr
        simpa using hnone r hr
      unfold calculateAndUpdateScore
      dsimp only
      rw [hget2]
      unfold createScore
      rw [hany, if_neg Bool.false_ne_true]
  | ok m =>
      have hget2 : getByAddress (upsertOffChainMetrics (upsertOnChainMetrics s onM) m)
          address = none := by
        rw [getByAddress_scores_eq (upsertOffChainMetrics_scores _ m),
          getByAddress_scores_eq (upsertOnChainMetrics_scores s onM)]
        exact getByAddress_none_of_no_row hnone
      have hany : ((upsertOffChainMetrics (upsertOnChainMetrics s onM) m).scores.any
          (fun r => r.userAddress == ({ { CalculateScore now (some onM) (some m) with
            userAddress := address } with updateCount := 1 } : CreditScore).userAddress))
          = false := by
        rw [upsertOffChainMetrics_scores, upsertOnChainMetrics_scores, List.any_eq_false]
        intro r hr
        simpa using hnone r hr
      unfold calculateAndUpdateScore
      dsimp only
      rw [hget2]
      unfold createScore
      rw [hany, if_neg Bool.false_ne_true]

/-- C4: assuming all persistence operations succeed, each successful
`CalculateAndUpdateScore` call with an existing active row preserves the
row's primary key and createdAt and sets updateCount to exactly the
previous value plus one; a call with no pre-existing row creates the row
with updateCount 1; and each appends exactly one new ScoreHistory
entry. -/
theorem calcAndUpdate_lifecycle (s : RepoState) (address : String) (onM : OnChainMetrics)
    (fetchOff : Except Err OffChainMetrics) (now : ℤ) :
    (∀ existing, getByAddress s address = some existing →
      (calculateAndUpdateScore s address (.ok onM) fetchOff now).err = none ∧
      ∃ saved, (calculateAndUpdateScore s address (.ok onM) fetchOff now).score = some saved ∧
        saved.id = existing.id ∧ saved.createdAt = existing.createdAt ∧
        saved.updateCount = existing.updateCount + 1 ∧
        (calculateAndUpdateScore s address (.ok onM) fetchOff now).state.scores =
          s.scores.map (fun r => if r.id == saved.id then saved else r) ∧
        (calculateAndUpdateScore s address (.ok onM) fetchOff now).state.history =
          s.history ++ [⟨address, saved.score, saved.confidence, saved.dataHash, now⟩]) ∧
    ((∀ r ∈ s.scores, r.userAddress ≠ address) →
      (calculateAndUpdateScore s address (.ok onM) fetchOff now).err = none ∧
      ∃ saved, (calculateAndUpdateScore s address (.ok onM) fetchOff now).score = some saved ∧
        saved.updateCount = 1 ∧
        (calculateAndUpdateScore s address (.ok onM) fetchOff now).state.scores =
          s.scores ++ [saved] ∧
        (calculateAndUpdateScore s address (.ok onM) fetchOff now).state.history =
          s.history ++ [⟨address, saved.score, saved.confidence, saved.dataHash, now⟩]) := by
  constructor
  · intro existing hex
    rw [calcAndUpdate_update_path s address onM fetchOff now existing hex]
    cases fetchOff with
    | error e =>
        dsimp only
        refine ⟨rfl, _, rfl, rfl, rfl, rfl, ?_, ?_⟩
        · simp only [createHistory, updateScore]
          rw [upsertOnChainMetrics_scores]
        · simp only [createHistory, updateScore]
          rw [upsertOnChainMetrics_history]
    | ok m =>
        dsimp only
        refine ⟨rfl, _, rfl, rfl, rfl, rfl, ?_, ?_⟩
        · simp only [createHistory, updateScore]
          rw [upsertOffChainMetrics_scores, upsertOnChainMetrics_scores]
        · simp only [createHistory, updateScore]
          rw [upsertOffChainMetrics_history, upsertOnChainMetrics_history]
  · intro hnone
    rw [calcAndUpdate_create_path s address onM fetchOff now hnone]
    cases fetchOff with
    | error e =>
        dsimp only
        refine ⟨rfl, _, rfl, rfl, ?_, ?_⟩
        · simp only [createHistory]
          rw [upsertOnChainMetrics_scores]
        · simp only [createHistory]
          rw [upsertOnChainMetrics_history]
    | ok m =>
        dsimp only
        refine ⟨rfl, _, rfl, rfl, ?_, ?_⟩
        · simp only [createHistory]
          rw [upsertOffChainMetrics_scores, upsertOnChainMetrics_scores]
        · simp only [createHistory]
          rw [upsertOffChainMetrics_history, upsertOnChainMetrics_history]

/-- Concrete on-chain snapshot used as witness input. -/
def witOnChain : OnChainMetrics :=
  { userAddress := "0x1"
    walletAge := 365
    totalTransactions := 50
    avgTransactionValue := 250
    defiInteractions := 15
    borrowingHistory := 5
    repaymentHistory := 5
    liquidationEvents := 0
    collateralValue := 2000
    lastActivity := 0 }

/-- Witness for C4: a concrete update-path call on `pubRepo`. -/
theorem calcAndUpdate_lifecycle_witness :
    (calculateAndUpdateScore pubRepo ("0x1") (.ok witOnChain) (.error (.provider ("down"))) 0).err
      = none ∧
    ∃ saved, (calculateAndUpdateScore pubRepo ("0x1") (.ok witOnChain)
        (.error (.provider ("down"))) 0).score = some saved ∧
      saved.id = pubRow.id ∧ saved.createdAt = pubRow.createdAt ∧
      saved.updateCount = pubRow.updateCount + 1 ∧
      (calculateAndUpdateScore pubRepo ("0x1") (.ok witOnChain)
          (.error (.provider ("down"))) 0).state.scores =
        pubRepo.scores.map (fun r => if r.id == saved.id then saved else r) ∧
      (calculateAndUpdateScore pubRepo ("0x1") (.ok witOnChain)
          (.error (.provider ("down"))) 0).state.history =
        pubRepo.history ++ [⟨"0x1", saved.score, saved.confidence, saved.dataHash, 0⟩] :=
  (calcAndUpdate_lifecycle pubRepo ("0x1") witOnChain (.error (.provider ("down"))) 0).1
    pubRow rfl

/-- C3: when the on-chain fetch succeeds and the off-chain fetch fails,
`CalculateAndUpdateScore` still succeeds (whenever the persistence step
can: an active row exists, or no row exists) and the returned and
persisted score has offChainComponent equal to 300. -/
theorem offchain_failure_component_300 (s : RepoState) (address : String)
    (onM : OnChainMetrics) (e : Err) (now : ℤ) :
    (∀ existing, getByAddress s address = some existing →
      (calculateAndUpdateScore s address (.ok onM) (.error e) now).err = none ∧
      ∃ saved, (calculateAndUpdateScore s address (.ok onM) (.error e) now).score
          = some saved ∧
        saved.offChainScore = MinScore ∧
        saved ∈ (calculateAndUpdateScore s address (.ok onM) (.error e) now).state.scores) ∧
    ((∀ r ∈ s.scores, r.userAddress ≠ address) →
      (calculateAndUpdateScore s address (.ok onM) (.error e) now).err = none ∧
      ∃ saved, (calculateAndUpdateScore s address (.ok onM) (.error e) now).score
          = some saved ∧
        saved.offChainScore = MinScore ∧
        saved ∈ (calculateAndUpdateScore s address (.ok onM) (.error e) now).state.scores) := by
  constructor
  · intro existing hex
    rw [calcAndUpdate_update_path s address onM (.error e) now existing hex]
    dsimp only
    refine ⟨rfl, _, rfl, rfl, ?_⟩
    simp only [createHistory, updateScore]
    rw [upsertOnChainMetrics_scores]
    refine List.mem_map.mpr ⟨existing, List.mem_of_find?_eq_some hex, ?_⟩
    simp
  · intro hnone
    rw [calcAndUpdate_create_path s address onM (.error e) now hnone]
    dsimp only
    refine ⟨rfl, _, rfl, rfl, ?_⟩
    simp only [createHistory]
    simp

/-- Witness for C3: the concrete update-path call of the C4 witness, with
the off-chain fetch failing. -/
theorem offchain_failure_component_300_witness :
    (calculateAndUpdateScore pubRepo ("0x1") (.ok witOnChain) (.error (.provider ("down"))) 0).err
      = none ∧
    ∃ saved, (calculateAndUpdateScore pubRepo ("0x1") (.ok witOnChain)
        (.error (.provider ("down"))) 0).score = some saved ∧
      saved.offChainScore = MinScore ∧
      saved ∈ (calculateAndUpdateScore pubRepo ("0x1") (.ok witOnChain)
        (.error (.provider ("down"))) 0).state.scores :=
  (offchain_failure_component_300 pubRepo ("0x1") witOnChain (.provider ("down")) 0).1 pubRow rfl

/-- C10: an address whose stored rows are all inactive is treated as
absent: `GetByAddress` reports no record and no error,
`PublishScoreToBlockchain` returns the not-found error and creates no
OracleUpdate row, and `CalculateAndUpdateScore` takes the create path
rather than the update path — observable here because the insert hits the
unique index on user_address (so the call fails with the create-error and
no stored row is modified). -/
theorem inactive_rows_treated_absent (s : RepoState) (address : String)
    (submitResult : Except Err (Option Tx)) (onM : OnChainMetrics)
    (fetchOff : Except Err OffChainMetrics) (now : ℤ)
    (hsome : ∃ r ∈ s.scores, r.userAddress = address)
    (hinactive : ∀ r ∈ s.scores, r.userAddress = address → r.isActive = false) :
    getByAddress s address = none ∧
    (publishScoreToBlockchain s address submitResult).err = some (.notFound address) ∧
    (publishScoreToBlockchain s address submitResult).state.oracleUpdates =
      s.oracleUpdates ∧
    (calculateAndUpdateScore s address (.ok onM) fetchOff now).err =
      some (.wrap ("failed to create score") .uniqueViolation) ∧
    (calculateAndUpdateScore s address (.ok onM) fetchOff now).state.scores = s.scores := by
  have hget : getByAddress s address = none := by
    unfold getByAddress
    apply List.find?_eq_none.mpr
    intro r hr
    by_cases hu : r.userAddress = address
    · simp [hu, hinactive r hr hu]
    · simp [hu]
  refine ⟨hget, ?_, ?_, ?_⟩
  · unfold publishScoreToBlockchain
    rw [hget]
  · unfold publishScoreToBlockchain
    rw [hget]
  · cases fetchOff with
    | error e =>
        have hget2 : getByAddress (upsertOnChainMetrics s onM) address = none := by
          rw [getByAddress_scores_eq (upsertOnChainMetrics_scores s onM)]
          exact hget
        have hany : ((upsertOnChainMetrics s onM).scores.any
            (fun r => r.userAddress == ({ { CalculateScore now (some onM) none with
              userAddress := address } with updateCount := 1 } : CreditScore).userAddress))
            = true := by
          rw [upsertOnChainMetrics_scores, List.any_eq_true]
          obtain ⟨r, hr, he⟩ := hsome
          exact ⟨r, hr, by simpa using he⟩
        unfold calculateAndUpdateScore
        dsimp only
        rw [hget2]
        unfold createScore
        rw [hany, if_pos rfl]
        exact ⟨rfl, upsertOnChainMetrics_scores s onM⟩
    | ok m =>
        have hget2 : getByAddress (upsertOffChainMetrics (upsertOnChainMetrics s onM) m)
            address = none := by
          rw [getByAddress_scores_eq (upsertOffChainMetrics_scores _ m),
            getByAddress_scores_eq (upsertOnChainMetrics_scores s onM)]
          exact hget
        have hany : ((upsertOffChainMetrics (upsertOnChainMetrics s onM) m).scores.any
            (fun r => r.userAddress == ({ { CalculateScore now (some onM) (some m) with
              userAddress := address } with updateCount := 1 } : CreditScore).userAddress))
            = true := by
          rw [upsertOffChainMetrics_scores, upsertOnChainMetrics_scores, List.any_eq_true]
          obtain ⟨r, hr, he⟩ := hsome
          exact ⟨r, hr, by simpa using he⟩
        unfold calculateAndUpdateScore
        dsimp only
        rw [hget2]
        unfold createScore
        rw [hany, if_pos rfl]
        constructor
        · rfl
        · rw [upsertOffChainMetrics_scores, upsertOnChainMetrics_scores]

/-- Credit-score row for the same address as `pubRow` but deactivated. -/
def inactiveRow : CreditScore :=
  { pubRow with isActive := false, id := 7 }

/-- Repository whose only row for the address is inactive. -/
def inactiveRepo : RepoState :=
  { emptyRepo with scores := [inactiveRow], nextId := 8 }

/-- Witness for C10 at the concrete repository with one inactive row. -/
theorem inactive_rows_treated_absent_witness :
    getByAddress inactiveRepo ("0x1") = none ∧
    (publishScoreToBlockchain inactiveRepo ("0x1") (.ok none)).err =
      some (.notFound ("0x1")) ∧
    (publishScoreToBlockchain inactiveRepo ("0x1") (.ok none)).state.oracleUpdates =
      inactiveRepo.oracleUpdates ∧
    (calculateAndUpdateScore inactiveRepo ("0x1") (.ok witOnChain)
      (.error (.provider ("down"))) 0).err =
      some (.wrap ("failed to create score") .uniqueViolation) ∧
    (calculateAndUpdateScore inactiveRepo ("0x1") (.ok witOnChain)
      (.error (.provider ("down"))) 0).state.scores = inactiveRepo.scores :=
  inactive_rows_treated_absent inactiveRepo ("0x1") (.ok none) witOnChain
    (.error (.provider ("down"))) 0
    ⟨inactiveRow, by simp [inactiveRepo], rfl⟩
    (by
      intro r hr _
      have hmem : r ∈ [inactiveRow] := hr
      rcases List.mem_singleton.mp hmem with rfl
      rfl)

/-! ### Monotonicity lemmas -/

theorem clamp_one_mono {s1 s2 : ℚ} (h : s1 ≤ s2) :
    (if 1 < s1 then (1 : ℚ) else s1) ≤ (if 1 < s2 then (1 : ℚ) else s2) := by
  split_ifs with h1 h2
  · exact le_refl _
  · exact absurd (lt_of_lt_of_le h1 h) h2
  · exact le_of_not_lt h1
  · exact h

theorem scoreWalletAge_mono {a1 a2 : ℕ} (h : a1 ≤ a2) :
    scoreWalletAge a1 ≤ scoreWalletAge a2 := by
  unfold scoreWalletAge
  split_ifs with h1 h2
  · exact le_refl _
  · exact absurd (le_trans h1 h) h2
  · rw [div_le_one (by norm_num)]
    exact_mod_cast (by omega : a1 ≤ 730)
  · gcongr

theorem scoreTransactionActivity_mono_tx {t1 t2 : ℕ} (v : ℚ) (h : t1 ≤ t2) :
    scoreTransactionActivity t1 v ≤ scoreTransactionActivity t2 v := by
  unfold scoreTransactionActivity
  have hm : min ((t1 : ℚ) / 100) 1 ≤ min ((t2 : ℚ) / 100) 1 := by
    gcongr
  linarith

theorem scoreDeFiActivity_mono {d1 d2 : ℕ} (h : d1 ≤ d2) :
    scoreDeFiActivity d1 ≤ scoreDeFiActivity d2 := by
  unfold scoreDeFiActivity
  gcongr

theorem scoreCollateral_mono {c1 c2 : ℚ} (h : c1 ≤ c2) :
    scoreCollateral c1 ≤ scoreCollateral c2 := by
  unfold scoreCollateral
  gcongr

theorem scoreBorrowingHistory_mono_repaid {b r1 r2 l : ℕ} (h : r1 ≤ r2) :
    scoreBorrowingHistory b r1 l ≤ scoreBorrowingHistory b r2 l := by
  unfold scoreBorrowingHistory
  split_ifs with hb
  · exact le_refl _
  · dsimp only
    have hbpos : (0 : ℚ) < (b : ℚ) := by
      exact_mod_cast Nat.pos_of_ne_zero hb
    have hs : (r1 : ℚ) / (b : ℚ) - (l : ℚ) * 0.2 ≤ (r2 : ℚ) / (b : ℚ) - (l : ℚ) * 0.2 := by
      gcongr
    split_ifs <;> linarith

theorem calculateOnChainScore_mono {m1 m2 : OnChainMetrics}
    (h1 : scoreWalletAge m1.walletAge ≤ scoreWalletAge m2.walletAge)
    (h2 : scoreTransactionActivity m1.totalTransactions m1.avgTransactionValue ≤
      scoreTransactionActivity m2.totalTransactions m2.avgTransactionValue)
    (h3 : scoreDeFiActivity m1.defiInteractions ≤ scoreDeFiActivity m2.defiInteractions)
    (h4 : scoreBorrowingHistory m1.borrowingHistory m1.repaymentHistory m1.liquidationEvents ≤
      scoreBorrowingHistory m2.borrowingHistory m2.repaymentHistory m2.liquidationEvents)
    (h5 : scoreCollateral m1.collateralValue ≤ scoreCollateral m2.collateralValue) :
    calculateOnChainScore (some m1) ≤ calculateOnChainScore (some m2) := by
  unfold calculateOnChainScore
  dsimp only
  apply Nat.add_le_add_left
  apply floatToUInt16_mono
  apply mul_le_mul_of_nonneg_right _ (by norm_num [MinScore, MaxScore] :
    (0 : ℚ) ≤ (MaxScore : ℚ) - (MinScore : ℚ))
  have w1 := mul_le_mul_of_nonneg_right h1 (by norm_num : (0 : ℚ) ≤ 0.25)
  have w2 := mul_le_mul_of_nonneg_right h2 (by norm_num : (0 : ℚ) ≤ 0.20)
  have w3 := mul_le_mul_of_nonneg_right h3 (by norm_num : (0 : ℚ) ≤ 0.15)
  have w4 := mul_le_mul_of_nonneg_right h4 (by norm_num : (0 : ℚ) ≤ 0.30)
  have w5 := mul_le_mul_of_nonneg_right h5 (by norm_num : (0 : ℚ) ≤ 0.10)
  linarith

set_option maxHeartbeats 1000000 in
theorem calculateHybridScore_mono (now : ℤ) {m1 m2 : OnChainMetrics} (f : OffChainMetrics)
    (hrep : m1.repaymentHistory ≤ m2.repaymentHistory)
    (hcol : m1.collateralValue ≤ m2.collateralValue)
    (hact : m1.lastActivity = m2.lastActivity) :
    calculateHybridScore now (some m1) (some f) ≤
      calculateHybridScore now (some m2) (some f) := by
  unfold calculateHybridScore
  dsimp only
  apply Nat.add_le_add_left
  apply floatToUInt16_mono
  apply mul_le_mul_of_nonneg_right _ (by norm_num [MinScore, MaxScore] :
    (0 : ℚ) ≤ (MaxScore : ℚ) - (MinScore : ℚ))
  have hT1 : (if 5 < m1.repaymentHistory ∧ f.incomeVerified = true then (0.30 : ℚ) else 0) ≤
      (if 5 < m2.repaymentHistory ∧ f.incomeVerified = true then (0.30 : ℚ) else 0) := by
    split_ifs with hA hB
    · exact le_refl _
    · exact absurd ⟨lt_of_lt_of_le hA.1 hrep, hA.2⟩ hB
    · norm_num
    · exact le_refl _
  have hT2 : (if now - m1.lastActivity < 30 * day then (0.20 : ℚ) else 0) ≤
      (if now - m2.lastActivity < 30 * day then (0.20 : ℚ) else 0) := by
    rw [hact]
  have hT3 : (if 1000 < m1.collateralValue ∧ f.incomeVerified = true then (0.25 : ℚ) else 0) ≤
      (if 1000 < m2.collateralValue ∧ f.incomeVerified = true then (0.25 : ℚ) else 0) := by
    split_ifs with hA hB
    · exact le_refl _
    · exact absurd ⟨lt_of_lt_of_le hA.1 hcol, hA.2⟩ hB
    · norm_num
    · exact le_refl _
  have hsum := add_le_add (add_le_add (add_le_add hT1 hT2) hT3)
    (le_refl (if f.employmentStatus = "full-time" ∨ f.employmentStatus = "self-employed"
      then (0.25 : ℚ) else 0))
  exact clamp_one_mono hsum

theorem calculateOffChainScore_mono_bank {v : Bool} {lvl : String} {t b1 b2 : ℕ} {d : ℚ}
    {a1 a2 e1 e2 ds1 ds2 : String} {lv1 lv2 : ℤ} (hb : b1 ≤ b2) :
    calculateOffChainScore (some ⟨a1, t, b1, v, lvl, e1, d, ds1, lv1⟩) ≤
      calculateOffChainScore (some ⟨a2, t, b2, v, lvl, e2, d, ds2, lv2⟩) := by
  unfold calculateOffChainScore
  dsimp only
  apply Nat.add_le_add_left
  apply floatToUInt16_mono
  apply mul_le_mul_of_nonneg_right _ (by norm_num [MinScore, MaxScore] :
    (0 : ℚ) ≤ (MaxScore : ℚ) - (MinScore : ℚ))
  have hbank : ((b1 : ℚ) / 100) * 0.20 ≤ ((b2 : ℚ) / 100) * 0.20 := by
    gcongr
  linarith

theorem compositeOf_mono {a1 a2 b1 b2 c1 c2 : ℕ} (ha : a1 ≤ a2) (hb : b1 ≤ b2)
    (hc : c1 ≤ c2) : compositeOf a1 b1 c1 ≤ compositeOf a2 b2 c2 := by
  unfold compositeOf
  dsimp only
  have hq : ((a1 : ℚ) * OnChainWeight + (b1 : ℚ) * OffChainWeight + (c1 : ℚ) * HybridWeight)
      ≤ ((a2 : ℚ) * OnChainWeight + (b2 : ℚ) * OffChainWeight + (c2 : ℚ) * HybridWeight) := by
    have k1 := mul_le_mul_of_nonneg_right
      (show ((a1 : ℚ)) ≤ (a2 : ℚ) by exact_mod_cast ha)
      (by norm_num [OnChainWeight] : (0 : ℚ) ≤ OnChainWeight)
    have k2 := mul_le_mul_of_nonneg_right
      (show ((b1 : ℚ)) ≤ (b2 : ℚ) by exact_mod_cast hb)
      (by norm_num [OffChainWeight] : (0 : ℚ) ≤ OffChainWeight)
    have k3 := mul_le_mul_of_nonneg_right
      (show ((c1 : ℚ)) ≤ (c2 : ℚ) by exact_mod_cast hc)
      (by norm_num [HybridWeight] : (0 : ℚ) ≤ HybridWeight)
    linarith
  have hm := floatToUInt16_mono hq
  unfold MinScore MaxScore
  split_ifs <;> omega

theorem calculateScore_score_eq (now : ℤ) (onChain : Option OnChainMetrics)
    (offChain : Option OffChainMetrics) :
    (CalculateScore now onChain offChain).score =
      compositeOf (calculateOnChainScore onChain) (calculateOffChainScore offChain)
        (calculateHybridScore now onChain offChain) := rfl

/-- C8: holding all other inputs fixed, the compositeScore returned by
`CalculateScore` is monotonic non-decreasing in each of walletAge,
totalTransactions, defiInteractions, collateralValue, the repayment
ratio (repaid count with the borrowed count held fixed), and
bankHistoryScore. -/
theorem compositeScore_monotone (now : ℤ) (m : OnChainMetrics) (f : OffChainMetrics) :
    (∀ a1 a2 : ℕ, a1 ≤ a2 →
      (CalculateScore now (some { m with walletAge := a1 }) (some f)).score ≤
        (CalculateScore now (some { m with walletAge := a2 }) (some f)).score) ∧
    (∀ t1 t2 : ℕ, t1 ≤ t2 →
      (CalculateScore now (some { m with totalTransactions := t1 }) (some f)).score ≤
        (CalculateScore now (some { m with totalTransactions := t2 }) (some f)).score) ∧
    (∀ d1 d2 : ℕ, d1 ≤ d2 →
      (CalculateScore now (some { m with defiInteractions := d1 }) (some f)).score ≤
        (CalculateScore now (some { m with defiInteractions := d2 }) (some f)).score) ∧
    (∀ c1 c2 : ℚ, c1 ≤ c2 →
      (CalculateScore now (some { m with collateralValue := c1 }) (some f)).score ≤
        (CalculateScore now (some { m with collateralValue := c2 }) (some f)).score) ∧
    (∀ r1 r2 : ℕ, r1 ≤ r2 →
      (CalculateScore now (some { m with repaymentHistory := r1 }) (some f)).score ≤
        (CalculateScore now (some { m with repaymentHistory := r2 }) (some f)).score) ∧
    (∀ b1 b2 : ℕ, b1 ≤ b2 →
      (CalculateScore now (some m) (some { f with bankAccountHistory := b1 })).score ≤
        (CalculateScore now (some m) (some { f with bankAccountHistory := b2 })).score) := by
  refine ⟨?_, ?_, ?_, ?_, ?_, ?_⟩
  · intro a1 a2 h
    simp only [calculateScore_score_eq]
    exact compositeOf_mono
      (calculateOnChainScore_mono (scoreWalletAge_mono h) le_rfl le_rfl le_rfl le_rfl)
      le_rfl le_rfl
  · intro t1 t2 h
    simp only [calculateScore_score_eq]
    exact compositeOf_mono
      (calculateOnChainScore_mono le_rfl
        (scoreTransactionActivity_mono_tx m.avgTransactionValue h) le_rfl le_rfl le_rfl)
      le_rfl le_rfl
  · intro d1 d2 h
    simp only [calculateScore_score_eq]
    exact compositeOf_mono
      (calculateOnChainScore_mono le_rfl le_rfl (scoreDeFiActivity_mono h) le_rfl le_rfl)
      le_rfl le_rfl
  · intro c1 c2 h
    simp only [calculateScore_score_eq]
    exact compositeOf_mono
      (calculateOnChainScore_mono le_rfl le_rfl le_rfl le_rfl (scoreCollateral_mono h))
      le_rfl
      (calculateHybridScore_mono now f le_rfl h rfl)
  · intro r1 r2 h
    simp only [calculateScore_score_eq]
    exact compositeOf_mono
      (calculateOnChainScore_mono le_rfl le_rfl le_rfl
        (scoreBorrowingHistory_mono_repaid h) le_rfl)
      le_rfl
      (calculateHybridScore_mono now f h le_rfl rfl)
  · intro b1 b2 h
    simp only [calculateScore_score_eq]
    exact compositeOf_mono le_rfl (calculateOffChainScore_mono_bank h) le_rfl

/-- Witness for C8: the six monotonicity statements instantiated at
concrete inputs. -/
theorem compositeScore_monotone_witness :
    ((CalculateScore 0 (some { witOnChain with walletAge := 0 }) (some docOffChain)).score ≤
      (CalculateScore 0 (some { witOnChain with walletAge := 730 }) (some docOffChain)).score) ∧
    ((CalculateScore 0 (some { witOnChain with totalTransactions := 10 })
        (some docOffChain)).score ≤
      (CalculateScore 0 (some { witOnChain with totalTransactions := 100 })
        (some docOffChain)).score) ∧
    ((CalculateScore 0 (some { witOnChain with defiInteractions := 0 })
        (some docOffChain)).score ≤
      (CalculateScore 0 (some { witOnChain with defiInteractions := 50 })
        (some docOffChain)).score) ∧
    ((CalculateScore 0 (some { witOnChain with collateralValue := 0 })
        (some docOffChain)).score ≤
      (CalculateScore 0 (some { witOnChain with collateralValue := 1 })
        (some docOffChain)).score) ∧
    ((CalculateScore 0 (some { witOnChain with repaymentHistory := 0 })
        (some docOffChain)).score ≤
      (CalculateScore 0 (some { witOnChain with repaymentHistory := 10 })
        (some docOffChain)).score) ∧
    ((CalculateScore 0 (some witOnChain)
        (some { docOffChain with bankAccountHistory := 0 })).score ≤
      (CalculateScore 0 (some witOnChain)
        (some { docOffChain with bankAccountHistory := 100 })).score) :=
  ⟨(compositeScore_monotone 0 witOnChain docOffChain).1 0 730 (by decide),
    (compositeScore_monotone 0 witOnChain docOffChain).2.1 10 100 (by decide),
    (compositeScore_monotone 0 witOnChain docOffChain).2.2.1 0 50 (by decide),
    (compositeScore_monotone 0 witOnChain docOffChain).2.2.2.1 0 1 zero_le_one,
    (compositeScore_monotone 0 witOnChain docOffChain).2.2.2.2.1 0 10 (by decide),
    (compositeScore_monotone 0 witOnChain docOffChain).2.2.2.2.2 0 100 (by decide)⟩

end P2PLend
